import Mathlib

/-!
Verification of the challenge evaluation and progression engine of the
sql-game repository. Each definition below is a shallow embedding of one
function of the source; JavaScript numbers are modelled by the exact
rationals, JavaScript integers by the integers, and Math.round by the
Mathlib round function (both round halves up).
-/

namespace SqlGame

/-- From src/unnamed/part_005, calculateChallengeScore: base score 100,
time penalty min 30 (round ((ratio - 1) * 20)) when ratio exceeds 1,
flat 20 when an index was required but not used, 10 per hint, floored at 0. -/
def calculateChallengeScore (executionTime optimalTime : ℚ)
    (usedIndex indexRequired : Bool) (hintsUsed : ℤ) : ℤ :=
  let score1 : ℤ := 100
  let timeRatio : ℚ := executionTime / optimalTime
  let score2 : ℤ :=
    if 1 < timeRatio then score1 - min 30 (round ((timeRatio - 1) * 20)) else score1
  let score3 : ℤ := if indexRequired && !usedIndex then score2 - 20 else score2
  let score4 : ℤ := score3 - hintsUsed * 10
  max 0 score4

/-- From src/unnamed/part_005: the bracket lookup baseXp[difficulty] on the
four-key object literal, restricted to its own keys; any other key yields
undefined at this step. -/
def baseXpOwn (difficulty : String) : Option ℤ :=
  if difficulty = "beginner" then some 50
  else if difficulty = "intermediate" then some 100
  else if difficulty = "advanced" then some 200
  else if difficulty = "expert" then some 400
  else none

/-- The property names a bracket lookup on a plain object literal also finds
on Object.prototype; each of them is a truthy function or object, so the
fallback expression base or beginner keeps the inherited member instead of
falling back. -/
def isObjectPrototypeKey (difficulty : String) : Bool :=
  difficulty = "constructor" || difficulty = "hasOwnProperty" ||
  difficulty = "isPrototypeOf" || difficulty = "propertyIsEnumerable" ||
  difficulty = "toLocaleString" || difficulty = "toString" ||
  difficulty = "valueOf" || difficulty = "__proto__" ||
  difficulty = "__defineGetter__" || difficulty = "__defineSetter__" ||
  difficulty = "__lookupGetter__" || difficulty = "__lookupSetter__"

/-- From src/unnamed/part_005, calculateXpEarned. The TypeScript key
assertion erases at runtime, so baseXp[difficulty] is a plain property
lookup that also consults Object.prototype: an own key yields its base; a
key inherited from Object.prototype yields a truthy non-number, the fallback
never fires, and the arithmetic on that member is NaN, modelled as none; an
absent key yields undefined, which is falsy, so the fallback supplies the
beginner base of 50. Otherwise round ((base * (score / 100)) / 5) * 5. -/
def calculateXpEarned (difficulty : String) (score : ℚ) : Option ℤ :=
  match baseXpOwn difficulty with
  | some base => some (round (((base : ℚ) * (score / 100)) / 5) * 5)
  | none =>
      if isObjectPrototypeKey difficulty then none
      else some (round ((((50 : ℤ) : ℚ) * (score / 100)) / 5) * 5)

/-- From src/frontend/src/services/gameService.ts, submitSolution: the score is
Math.floor(Math.random() * 40) + 60, where the random draw r lies in [0, 1).
The draw is the only input that influences the score; the submitted query and
any correctness verdict are not consulted. -/
def submitSolutionScore (r : ℚ) : ℤ :=
  ⌊r * 40⌋ + 60

/-- From src/frontend/src/services/gameService.ts, submitSolution:
xpEarned = Math.floor(score / 2). -/
def submitSolutionXpEarned (r : ℚ) : ℤ :=
  ⌊(submitSolutionScore r : ℚ) / 2⌋

/-- Player progression state, from the Player shape used by
updatePlayerProgress in src/frontend/src/App.tsx. -/
structure Player where
  level : ℤ
  xp : ℤ
  xpToNextLevel : ℤ
deriving DecidableEq

/-- From src/frontend/src/App.tsx, updatePlayerProgress: a single conditional,
not a loop. When newXp reaches the threshold the level rises by exactly one,
the threshold is subtracted once, and the next threshold becomes
Math.round(threshold * 1.5). Otherwise only xp is replaced. No validation of
the xpEarned argument is performed. -/
def updatePlayerProgress (p : Player) (xpEarned : ℤ) : Player :=
  let newXp := p.xp + xpEarned
  let xpNeeded := p.xpToNextLevel
  if xpNeeded ≤ newXp then
    { level := p.level + 1
      xp := newXp - xpNeeded
      xpToNextLevel := round ((xpNeeded : ℚ) * (3 / 2)) }
  else
    { p with xp := newXp }

/-- Per-level record, from the level objects mapped over by
markLevelCompleted in src/frontend/src/App.tsx. The optional score field of
the source is modelled with 0 for absent, matching the source expression
level.score or 0. -/
structure LevelRecord where
  id : ℤ
  completed : Bool
  score : ℤ
deriving DecidableEq

/-- From src/frontend/src/App.tsx, the per-level branch of markLevelCompleted:
the matching level is marked completed unconditionally and keeps its highest
score; other levels are unchanged. -/
def updateLevelRecord (levelId score : ℤ) (l : LevelRecord) : LevelRecord :=
  if l.id = levelId then { l with completed := true, score := max score l.score } else l

/-- From src/frontend/src/App.tsx, the cluster progress recomputation inside
markLevelCompleted: Math.round((completedLevels / total) * 100) when at least
one level is completed, else 0. -/
def clusterProgress (levels : List LevelRecord) : ℤ :=
  let completedLevels := (levels.filter (fun l => l.completed)).length
  if 0 < completedLevels then
    round (((completedLevels : ℚ) / (levels.length : ℚ)) * 100)
  else 0

/-- A level cluster, from the cluster objects of src/frontend/src/App.tsx. -/
structure LevelCluster where
  levels : List LevelRecord
  progress : ℤ
deriving DecidableEq

/-- From src/frontend/src/App.tsx, markLevelCompleted restricted to one
cluster: map the per-level update over the levels, then recompute progress. -/
def markLevelCompleted (levelId score : ℤ) (c : LevelCluster) : LevelCluster :=
  let updatedLevels := c.levels.map (updateLevelRecord levelId score)
  { levels := updatedLevels, progress := clusterProgress updatedLevels }

/-- From src/frontend/src/pages/ChallengePage.tsx, handleSubmitSolution:
navigation to the results page happens exactly when result.score >= 70. -/
def shouldAutoAdvance (score : ℤ) : Bool :=
  decide (70 ≤ score)

/-- Leaderboard entry, from the LeaderboardEntry objects of
src/frontend/src/pages/PaymentDashboard.tsx. -/
structure LeaderboardEntry where
  rank : ℤ
  playerName : String
  region : String
deriving DecidableEq

/-- Case-insensitive substring test, modelling
name.toLowerCase().includes(query.toLowerCase()). -/
def nameMatchesSearch (playerName searchQuery : String) : Bool :=
  decide (searchQuery.toLower.toList <:+: playerName.toLower.toList)

/-- From src/frontend/src/pages/PaymentDashboard.tsx: the region step of the
global leaderboard pipeline, applied only when the region filter differs
from "all". -/
def regionFiltered (entries : List LeaderboardEntry) (region : String) :
    List LeaderboardEntry :=
  if region = "all" then entries
  else entries.filter (fun e => e.region = region)

/-- From src/frontend/src/pages/PaymentDashboard.tsx: the search step of the
pipeline, applied only when the search query is non-empty (the source guards
on a truthy string). -/
def searchFiltered (entries : List LeaderboardEntry) (searchQuery : String) :
    List LeaderboardEntry :=
  if searchQuery = "" then entries
  else entries.filter (fun e => nameMatchesSearch e.playerName searchQuery)

/-- From src/frontend/src/pages/PaymentDashboard.tsx, the global leaderboard
pipeline: filter by region, filter by search query, then sort ascending by
the stored rank field. No rank is ever reassigned. -/
def filterLeaderboard (entries : List LeaderboardEntry)
    (region searchQuery : String) : List LeaderboardEntry :=
  List.insertionSort (fun a b => a.rank ≤ b.rank)
    (searchFiltered (regionFiltered entries region) searchQuery)

/-- Modelled from the spec: the overall score formula of section 4.1 as the
claim states it, with the clamp written over both ends of [0, 100]. Used only
to compare the source scoring function against the specified formula. -/
def overallScoreSpec (executionTime optimalTime : ℚ)
    (usedIndex indexRequired : Bool) (hintsUsed : ℤ) : ℤ :=
  let ratio : ℚ := executionTime / optimalTime
  let timePenalty : ℤ := if 1 < ratio then min 30 (round ((ratio - 1) * 20)) else 0
  let indexPenalty : ℤ := if indexRequired && !usedIndex then 20 else 0
  max 0 (min 100 (100 - timePenalty - indexPenalty - 10 * hintsUsed))

/-- Modelled from the spec: the per-tier base XP table of section 4.2. -/
def baseXpSpec (difficulty : String) : ℤ :=
  if difficulty = "beginner" then 50
  else if difficulty = "intermediate" then 100
  else if difficulty = "advanced" then 200
  else 400

/-- Modelled from the spec: xpEarned = round ((base * score / 100) / 5) * 5. -/
def xpEarnedSpec (difficulty : String) (score : ℚ) : ℤ :=
  round (((baseXpSpec difficulty : ℚ) * (score / 100)) / 5) * 5

/-! Helper lemmas -/

/-- Rounding a non-negative rational yields a non-negative integer. -/
lemma round_nonneg_of_nonneg (x : ℚ) (h : 0 ≤ x) : 0 ≤ round x := by
  rw [round_eq]
  exact Int.le_floor.mpr (by push_cast; linarith)

/-- The scoring function written as one clamped expression of its penalties. -/
lemma calculateChallengeScore_closed (et ot : ℚ) (ui ir : Bool) (h : ℤ) :
    calculateChallengeScore et ot ui ir h =
      max 0 (100 - (if 1 < et / ot then min 30 (round ((et / ot - 1) * 20)) else 0)
        - (if ir && !ui then 20 else 0) - h * 10) := by
  unfold calculateChallengeScore
  by_cases h1 : 1 < et / ot <;> by_cases h2 : (ir && !ui) = true <;>
    simp [h1, h2]

/-- The time penalty term of the scoring function is non-negative. -/
lemma timePenalty_nonneg (et ot : ℚ) :
    0 ≤ (if 1 < et / ot then min 30 (round ((et / ot - 1) * 20)) else 0 : ℤ) := by
  split_ifs with hgt
  · exact le_min (by norm_num) (round_nonneg_of_nonneg _ (by linarith))
  · exact le_refl 0

/-- The index penalty term of the scoring function is non-negative. -/
lemma indexPenalty_nonneg (ui ir : Bool) :
    0 ≤ (if ir && !ui then 20 else 0 : ℤ) := by
  split_ifs <;> norm_num

/-! Theorems for the claims -/

/-- C6: for all valid inputs (executionTime at least 0, optimalTime positive,
hintsUsed at least 0), the overall score returned by calculateChallengeScore
lies in the interval [0, 100]. -/
theorem challenge_score_in_unit_range (et ot : ℚ) (ui ir : Bool) (h : ℤ)
    (h1 : 0 ≤ et) (h2 : 0 < ot) (h3 : 0 ≤ h) :
    0 ≤ calculateChallengeScore et ot ui ir h ∧
      calculateChallengeScore et ot ui ir h ≤ 100 := by
  rw [calculateChallengeScore_closed]
  refine ⟨le_max_left _ _, max_le (by norm_num) ?_⟩
  have htp := timePenalty_nonneg et ot
  have hip := indexPenalty_nonneg ui ir
  linarith

/-- C6 witness: the bounds instantiated at executionTime 1, optimalTime 1,
no index use, no hints. -/
theorem challenge_score_in_unit_range_witness :
    0 ≤ calculateChallengeScore 1 1 true false 0 ∧
      calculateChallengeScore 1 1 true false 0 ≤ 100 :=
  challenge_score_in_unit_range 1 1 true false 0 (by norm_num) (by norm_num)
    (by norm_num)

/-- C3: for every valid input the source scoring function agrees with the
formula of the spec (start at 100, subtract min 30 (round ((ratio - 1) * 20))
when the ratio exceeds 1, a flat 20 when an index was required but unused, and
10 per hint, clamped to [0, 100]); the scenario executionTime 1.2,
optimalTime 0.8, mustUseIndex true, usedIndex false, hintsUsed 1 yields 60. -/
theorem challenge_score_matches_spec_formula (et ot : ℚ) (ui ir : Bool)
    (h : ℤ) (hh : 0 ≤ h) :
    calculateChallengeScore et ot ui ir h = overallScoreSpec et ot ui ir h ∧
      calculateChallengeScore (6/5) (4/5) false true 1 = 60 := by
  constructor
  · have htp := timePenalty_nonneg et ot
    have hip := indexPenalty_nonneg ui ir
    rw [calculateChallengeScore_closed]
    simp only [overallScoreSpec]
    set A := (if 1 < et / ot then min 30 (round ((et / ot - 1) * 20)) else 0 : ℤ)
      with hA
    set B := (if ir && !ui then (20 : ℤ) else 0) with hB
    omega
  · rw [calculateChallengeScore_closed]
    norm_num [round_eq]

/-- C3 witness: the scenario value read off from the theorem itself. -/
theorem challenge_score_matches_spec_formula_witness :
    calculateChallengeScore (6/5) (4/5) false true 1 = 60 :=
  (challenge_score_matches_spec_formula (6/5) (4/5) false true 1
    (by norm_num)).2

/-- C7: on each of the four difficulty tiers calculateXpEarned agrees with the
spec formula round ((base * score / 100) / 5) * 5 over the spec base table
(50, 100, 200, 400); for every difficulty that is an own key of the base
table and every score in [0, 100] the result is a non-negative multiple
of 5; the beginner tier at score 60 yields 30. -/
theorem xp_earned_matches_spec (d : String) (s : ℚ) (h0 : 0 ≤ s)
    (h1 : s ≤ 100) (hd : (baseXpOwn d).isSome = true) :
    calculateXpEarned "beginner" s = some (xpEarnedSpec "beginner" s) ∧
    calculateXpEarned "intermediate" s = some (xpEarnedSpec "intermediate" s) ∧
    calculateXpEarned "advanced" s = some (xpEarnedSpec "advanced" s) ∧
    calculateXpEarned "expert" s = some (xpEarnedSpec "expert" s) ∧
    (∃ x : ℤ, calculateXpEarned d s = some x ∧ 0 ≤ x ∧ (5 : ℤ) ∣ x) ∧
    calculateXpEarned "beginner" 60 = some 30 := by
  have hq : ∀ b : ℤ, 0 ≤ b → (0 : ℚ) ≤ ((b : ℚ) * (s / 100)) / 5 := by
    intro b hb
    exact div_nonneg
      (mul_nonneg (by exact_mod_cast hb) (div_nonneg h0 (by norm_num)))
      (by norm_num)
  refine ⟨?_, ?_, ?_, ?_, ?_, ?_⟩
  · simp [calculateXpEarned, baseXpOwn, xpEarnedSpec, baseXpSpec]
  · simp [calculateXpEarned, baseXpOwn, xpEarnedSpec, baseXpSpec]
  · simp [calculateXpEarned, baseXpOwn, xpEarnedSpec, baseXpSpec]
  · simp [calculateXpEarned, baseXpOwn, xpEarnedSpec, baseXpSpec]
  · obtain ⟨b, hb⟩ := Option.isSome_iff_exists.mp hd
    have hbpos : (0 : ℤ) ≤ b := by
      unfold baseXpOwn at hb
      split_ifs at hb <;> injection hb with h <;> omega
    refine ⟨round (((b : ℚ) * (s / 100)) / 5) * 5, ?_, ?_, dvd_mul_left 5 _⟩
    · simp [calculateXpEarned, hb]
    · exact mul_nonneg (round_nonneg_of_nonneg _ (hq b hbpos)) (by norm_num)
  · norm_num [calculateXpEarned, baseXpOwn, round_eq]

/-- C7 witness: the beginner tier at score 60, read off from the theorem. -/
theorem xp_earned_matches_spec_witness :
    calculateXpEarned "beginner" 60 = some 30 :=
  (xp_earned_matches_spec "beginner" 60 (by norm_num) (by norm_num)
    (by decide)).2.2.2.2.2

/-- C10 counterexample: the difficulty string toString is not computed with
the beginner base: the bracket lookup finds the truthy inherited
Object.prototype member, the fallback never fires, and the result is NaN
(none), unlike the beginner value some 30 at score 60. -/
theorem xp_earned_prototype_key_counterexample :
    calculateXpEarned "toString" 60 = none ∧
      calculateXpEarned "beginner" 60 = some 30 := by
  constructor
  · simp [calculateXpEarned, baseXpOwn, isObjectPrototypeKey]
  · norm_num [calculateXpEarned, baseXpOwn, round_eq]

/-- C10 amended: for a difficulty string that is neither an own key of the
base table nor a property name inherited from Object.prototype, the XP
calculation falls back to the beginner base of 50; for an inherited property
name such as toString the lookup keeps the truthy prototype member and the
result is NaN (none), not a beginner-based value. -/
theorem xp_earned_fallback_outside_prototype (d : String) (s : ℚ)
    (hown : baseXpOwn d = none) :
    (isObjectPrototypeKey d = false →
      calculateXpEarned d s = calculateXpEarned "beginner" s) ∧
    (isObjectPrototypeKey d = true → calculateXpEarned d s = none) := by
  constructor
  · intro hproto
    unfold calculateXpEarned
    rw [hown]
    simp [hproto, baseXpOwn]
  · intro hproto
    unfold calculateXpEarned
    rw [hown]
    simp [hproto]

/-- C10 witness: an arbitrary unknown difficulty string outside the
prototype chain scores like the beginner tier. -/
theorem xp_earned_fallback_outside_prototype_witness :
    calculateXpEarned "legendary" 60 = calculateXpEarned "beginner" 60 :=
  (xp_earned_fallback_outside_prototype "legendary" 60 (by decide)).1
    (by decide)

/-- C1 counterexample: the evaluation path of the source takes no correctness
verdict at all, and at random draw 0 it returns the score 60, not 0; so a
submission whose external verdict is false is not scored 0 by this path. -/
theorem submit_solution_score_not_zero_counterexample :
    submitSolutionScore 0 = 60 ∧ submitSolutionScore 0 ≠ 0 := by
  constructor <;> norm_num [submitSolutionScore]

/-- C1 amended: for every random draw r in [0, 1), the score returned by the
submitSolution evaluation path lies in [60, 99] and in particular is never 0,
for every submission and independent of any correctness verdict (which the
path does not consult). -/
theorem submit_solution_score_range (r : ℚ) (h0 : 0 ≤ r) (h1 : r < 1) :
    60 ≤ submitSolutionScore r ∧ submitSolutionScore r ≤ 99 ∧
      submitSolutionScore r ≠ 0 := by
  unfold submitSolutionScore
  have hlo : 0 ≤ ⌊r * 40⌋ :=
    Int.le_floor.mpr (by push_cast; nlinarith)
  have hhi : ⌊r * 40⌋ < 40 :=
    Int.floor_lt.mpr (by push_cast; nlinarith)
  refine ⟨by omega, by omega, by omega⟩

/-- C1 witness: the range applied at the draw 0. -/
theorem submit_solution_score_range_witness :
    60 ≤ submitSolutionScore 0 ∧ submitSolutionScore 0 ≤ 99 ∧
      submitSolutionScore 0 ≠ 0 :=
  submit_solution_score_range 0 (by norm_num) (by norm_num)

/-- C2 counterexample: from level 1, xp 0, threshold 1000, awarding 4000 XP
leaves the player at level 2 with xp 3000 and threshold 1500, violating the
invariant xp < xpToNextLevel and raising the level by only one where the
claimed carry loop would have raised it further. -/
theorem update_player_progress_invariant_counterexample :
    (updatePlayerProgress ⟨1, 0, 1000⟩ 4000).level = 2 ∧
      ¬ ((updatePlayerProgress ⟨1, 0, 1000⟩ 4000).xp <
          (updatePlayerProgress ⟨1, 0, 1000⟩ 4000).xpToNextLevel) := by
  constructor <;> norm_num [updatePlayerProgress, round_eq]

/-- C2 amended: the XP update performs at most one level-up per call. When
xp + xpEarned reaches the threshold it increments the level by exactly one,
subtracts the threshold once, and sets the next threshold to
round (threshold * 1.5); the invariant 0 <= xp < xpToNextLevel is preserved
only under the additional bound xp + xpEarned < threshold + round (threshold
* 1.5), and a single large reward can break it. -/
theorem update_player_progress_single_level_up (p : Player) (e : ℤ)
    (hxp0 : 0 ≤ p.xp) (hxp1 : p.xp < p.xpToNextLevel) (he : 0 ≤ e)
    (hbound : p.xp + e <
      p.xpToNextLevel + round ((p.xpToNextLevel : ℚ) * (3 / 2))) :
    0 ≤ (updatePlayerProgress p e).xp ∧
    (updatePlayerProgress p e).xp < (updatePlayerProgress p e).xpToNextLevel ∧
    (updatePlayerProgress p e).level ≤ p.level + 1 ∧
    (p.xpToNextLevel ≤ p.xp + e →
      updatePlayerProgress p e =
        ⟨p.level + 1, p.xp + e - p.xpToNextLevel,
          round ((p.xpToNextLevel : ℚ) * (3 / 2))⟩) := by
  simp only [updatePlayerProgress]
  by_cases hc : p.xpToNextLevel ≤ p.xp + e
  · rw [if_pos hc]
    refine ⟨?_, ?_, ?_, fun _ => rfl⟩
    · show 0 ≤ p.xp + e - p.xpToNextLevel
      omega
    · show p.xp + e - p.xpToNextLevel < round ((p.xpToNextLevel : ℚ) * (3 / 2))
      linarith
    · show p.level + 1 ≤ p.level + 1
      omega
  · rw [if_neg hc]
    refine ⟨?_, ?_, ?_, fun hcontra => absurd hcontra hc⟩
    · show 0 ≤ p.xp + e
      omega
    · show p.xp + e < p.xpToNextLevel
      omega
    · show p.level ≤ p.level + 1
      omega

/-- C2 witness: the spec scenario, level 1 with xp 900 and threshold 1000
awarded 150 XP becomes level 2 with xp 50 and threshold 1500. -/
theorem update_player_progress_single_level_up_witness :
    updatePlayerProgress ⟨1, 900, 1000⟩ 150 = ⟨2, 50, 1500⟩ := by
  have h :=
    (update_player_progress_single_level_up ⟨1, 900, 1000⟩ 150 (by norm_num)
      (by norm_num) (by norm_num) (by norm_num [round_eq])).2.2.2 (by norm_num)
  rw [h]
  norm_num [round_eq]

/-- C8 counterexample: a negative XP award is not rejected; from level 1,
xp 100, threshold 1000, awarding -50 silently changes the state to xp 50. -/
theorem update_player_progress_negative_counterexample :
    (updatePlayerProgress ⟨1, 100, 1000⟩ (-50)).xp = 50 ∧
      updatePlayerProgress ⟨1, 100, 1000⟩ (-50) ≠ ⟨1, 100, 1000⟩ := by
  constructor <;> norm_num [updatePlayerProgress]

/-- C8 amended: a negative xpEarned that keeps the total below the threshold
is applied silently, with no rejection and no error: the xp field becomes
xp + xpEarned (a strict decrease) and level and threshold are unchanged. -/
theorem update_player_progress_accepts_negative (p : Player) (e : ℤ)
    (hneg : e < 0) (hlt : p.xp + e < p.xpToNextLevel) :
    updatePlayerProgress p e = { p with xp := p.xp + e } ∧
      (updatePlayerProgress p e).xp < p.xp := by
  unfold updatePlayerProgress
  rw [if_neg (not_le.mpr hlt)]
  exact ⟨rfl, by simp; omega⟩

/-- C8 witness: the silent application at level 1, xp 100, threshold 1000,
award -50. -/
theorem update_player_progress_accepts_negative_witness :
    updatePlayerProgress ⟨1, 100, 1000⟩ (-50) = ⟨1, 50, 1000⟩ := by
  have h :=
    (update_player_progress_accepts_negative ⟨1, 100, 1000⟩ (-50)
      (by norm_num) (by norm_num)).1
  rw [h]
  simp

/-- C5 counterexample: a recorded attempt scoring 0 on an uncompleted level
record sets the completed flag, so the flag does not equal
old completed or score at least 70. -/
theorem level_completed_threshold_counterexample :
    ¬ ((updateLevelRecord 1 0 ⟨1, false, 0⟩).completed =
        (false || decide ((0 : ℤ) ≥ 70))) := by
  decide

/-- C5 amended: markLevelCompleted marks the matching level record completed
unconditionally, regardless of the attempt score; completed stays sticky once
true, and the fixed 70 threshold appears only in the auto-advance check of the
challenge page, not in the completion update. -/
theorem level_completed_unconditional (levelId score : ℤ) (l : LevelRecord)
    (c : LevelCluster) :
    (updateLevelRecord levelId score l).completed
        = (l.completed || decide (l.id = levelId)) ∧
    (l.completed = true → (updateLevelRecord levelId score l).completed = true) ∧
    (markLevelCompleted levelId score c).levels
        = c.levels.map (updateLevelRecord levelId score) ∧
    (shouldAutoAdvance score = true ↔ 70 ≤ score) := by
  refine ⟨?_, ?_, rfl, ?_⟩
  · unfold updateLevelRecord
    by_cases h : l.id = levelId <;> simp [h]
  · intro hcomp
    unfold updateLevelRecord
    by_cases h : l.id = levelId <;> simp [h, hcomp]
  · simp [shouldAutoAdvance]

/-- C5 witness: stickiness applied at an already completed record. -/
theorem level_completed_unconditional_witness :
    (updateLevelRecord 1 0 ⟨1, true, 0⟩).completed = true :=
  (level_completed_unconditional 1 0 ⟨1, true, 0⟩ ⟨[], 0⟩).2.1 rfl

/-- The per-level update of markLevelCompleted is idempotent. -/
lemma updateLevelRecord_idem (levelId score : ℤ) (l : LevelRecord) :
    updateLevelRecord levelId score (updateLevelRecord levelId score l)
      = updateLevelRecord levelId score l := by
  unfold updateLevelRecord
  by_cases h : l.id = levelId <;> simp [h, ← max_assoc]

/-- Mapping the per-level update twice equals mapping it once. -/
lemma map_updateLevelRecord_idem (levelId score : ℤ)
    (ls : List LevelRecord) :
    (ls.map (updateLevelRecord levelId score)).map
        (updateLevelRecord levelId score)
      = ls.map (updateLevelRecord levelId score) := by
  induction ls with
  | nil => rfl
  | cons a t ih => simp [updateLevelRecord_idem, ih]

/-- C9: for a non-empty record list the recomputed cluster progress equals
round (100 * completed count / total count); the recomputation is invariant
under permutation of the record list; and repeating markLevelCompleted with
the same arguments changes nothing, so the recomputation is idempotent with
no further state change. -/
theorem cluster_progress_formula_perm_idem (levels : List LevelRecord)
    (hne : levels ≠ []) :
    clusterProgress levels =
      round ((100 : ℚ) * ((levels.filter (fun l => l.completed)).length : ℚ)
        / (levels.length : ℚ)) ∧
    (∀ levels2, levels.Perm levels2 →
      clusterProgress levels = clusterProgress levels2) ∧
    (∀ levelId score c,
      markLevelCompleted levelId score (markLevelCompleted levelId score c)
        = markLevelCompleted levelId score c) := by
  refine ⟨?_, ?_, ?_⟩
  · simp only [clusterProgress]
    by_cases hc : 0 < (levels.filter (fun l => l.completed)).length
    · rw [if_pos hc]
      exact congrArg round (by ring)
    · rw [if_neg hc]
      have h0 : (levels.filter (fun l => l.completed)).length = 0 := by omega
      rw [h0]
      simp
  · intro levels2 hp
    simp only [clusterProgress]
    rw [hp.length_eq, (hp.filter _).length_eq]
  · intro levelId score c
    simp only [markLevelCompleted]
    rw [map_updateLevelRecord_idem]

/-- C9 witness: the formula applied to a one-record fully completed list. -/
theorem cluster_progress_formula_perm_idem_witness :
    clusterProgress [⟨1, true, 80⟩] = 100 := by
  have h := (cluster_progress_formula_perm_idem [⟨1, true, 80⟩] (by simp)).1
  rw [h]
  have hf : List.filter (fun l : LevelRecord => l.completed)
      [(⟨1, true, 80⟩ : LevelRecord)] = [⟨1, true, 80⟩] := rfl
  rw [hf]
  norm_num [round_eq]

/-- Region filtering only removes entries; survivors are unchanged. -/
lemma mem_of_mem_regionFiltered {entries : List LeaderboardEntry}
    {region : String} {e : LeaderboardEntry}
    (h : e ∈ regionFiltered entries region) : e ∈ entries := by
  unfold regionFiltered at h
  split_ifs at h
  · exact h
  · exact (List.mem_filter.mp h).1

/-- Search filtering only removes entries; survivors are unchanged. -/
lemma mem_of_mem_searchFiltered {entries : List LeaderboardEntry}
    {searchQuery : String} {e : LeaderboardEntry}
    (h : e ∈ searchFiltered entries searchQuery) : e ∈ entries := by
  unfold searchFiltered at h
  split_ifs at h
  · exact h
  · exact (List.mem_filter.mp h).1

/-- C4 counterexample: filtering a 2-entry board by region keeps the
surviving entry with its original rank 2; the survivor is not re-ranked
to 1 as a dense recomputed rank would require. -/
theorem leaderboard_rank_preserved_counterexample :
    (filterLeaderboard [⟨1, "alice", "Europe"⟩, ⟨2, "bob", "Asia"⟩]
        "Asia" "").map (fun e => e.rank) = [2] ∧
    (filterLeaderboard [⟨1, "alice", "Europe"⟩, ⟨2, "bob", "Asia"⟩]
        "Asia" "").map (fun e => e.rank) ≠ [1] := by
  constructor <;> decide

/-- C4 amended: the leaderboard pipeline filters and sorts but never
reassigns ranks: every entry of the filtered output is an entry of the input
with all fields, rank included, unchanged; with no filters the output is a
permutation of the input. -/
theorem leaderboard_filter_preserves_entries
    (entries : List LeaderboardEntry) (region searchQuery : String) :
    (∀ e, e ∈ filterLeaderboard entries region searchQuery → e ∈ entries) ∧
    (filterLeaderboard entries "all" "").Perm entries := by
  constructor
  · intro e he
    unfold filterLeaderboard at he
    replace he := (List.perm_insertionSort _ _).mem_iff.mp he
    exact mem_of_mem_regionFiltered (mem_of_mem_searchFiltered he)
  · have h1 : regionFiltered entries "all" = entries := by
      unfold regionFiltered; simp
    have h2 : searchFiltered entries "" = entries := by
      unfold searchFiltered; simp
    unfold filterLeaderboard
    rw [h1, h2]
    exact List.perm_insertionSort _ entries

/-- C4 witness: the surviving entry of the counterexample board is an
unchanged entry of the input. -/
theorem leaderboard_filter_preserves_entries_witness :
    (⟨2, "bob", "Asia"⟩ : LeaderboardEntry) ∈
      [(⟨1, "alice", "Europe"⟩ : LeaderboardEntry), ⟨2, "bob", "Asia"⟩] :=
  (leaderboard_filter_preserves_entries
    [⟨1, "alice", "Europe"⟩, ⟨2, "bob", "Asia"⟩] "Asia" "").1
    ⟨2, "bob", "Asia"⟩ (by decide)

end SqlGame
